import Mathlib

/-!
A shallow embedding of `src/weather_app.py` (a Streamlit weather dashboard) and
proofs about its forecast-parsing and view-building pipeline.

Times are unix seconds as `Nat`; calendar dates are day numbers (`t / 86400`).
Measure values are carried as `Int` (the pipeline only moves them around, so the
value type is irrelevant to every property proved here).  Out-of-range positional
flatbuffers access (`Variables(j)` with `j` past the end of the returned vector)
is undefined behaviour in the Python reader and is modelled as `none`.
-/

namespace WeatherApp

/-- Variables requested for the current range (weather_app.py line 29). -/
def currentVars : List String :=
  ["temperature_2m", "relative_humidity_2m", "apparent_temperature", "precipitation",
   "rain", "showers", "snowfall", "is_day", "weather_code"]

/-- Variables requested for the hourly range (weather_app.py line 30). -/
def hourlyVars : List String :=
  ["temperature_2m", "relative_humidity_2m", "dew_point_2m", "apparent_temperature",
   "precipitation_probability", "cloud_cover"]

/-- Variables requested for the daily range (weather_app.py line 31). -/
def dailyVars : List String :=
  ["temperature_2m_max", "temperature_2m_min", "apparent_temperature_max",
   "apparent_temperature_min", "sunrise", "sunset"]

/-- One range (hourly or daily) of the provider response: time metadata plus the
positional value arrays of the flatbuffers `VariablesWithTime` table. -/
structure RangeResponse where
  time : Nat
  timeEnd : Nat
  interval : Nat
  varArrays : List (List Int)
deriving DecidableEq, Repr

/-- Positional access `X.Variables(j).ValuesAsNumpy()`: the j-th returned array.
The flatbuffers reader does not bounds-check `j`; out-of-range access is
undefined and modelled as `none`. -/
def RangeResponse.Variables (r : RangeResponse) (j : Nat) : Option (List Int) :=
  r.varArrays[j]?

/-- The current range of the provider response: reference time plus one scalar
per returned variable, positionally. -/
structure CurrentResponse where
  time : Nat
  values : List Int
deriving DecidableEq, Repr

/-- Positional access `current.Variables(j).Value()`, modelled as `none` when
out of range. -/
def CurrentResponse.Value (c : CurrentResponse) (j : Nat) : Option Int :=
  c.values[j]?

/-- Number of points of `pd.date_range(start, end, freq, inclusive="left")`:
the timestamps `start + k * freq` that are strictly below `end`. -/
def gridLen (s e i : Nat) : Nat := (e - s + i - 1) / i

/-- The time grid `pd.date_range(start=Time, end=TimeEnd, freq=Interval,
inclusive="left")` used for the hourly and daily dataframes
(weather_app.py lines 155-160 and 173-178). -/
def dateRange (s e i : Nat) : List Nat :=
  (List.range (gridLen s e i)).map (fun k => s + k * i)

/-- A wide dataframe: a date column plus named measure columns, aligned by
position. -/
structure DataFrame where
  dates : List Nat
  cols : List (String × List Int)
deriving DecidableEq, Repr

/-- The `pd.DataFrame(data=dict)` constructor: succeeds only when every column
has the same length as the date column (pandas raises otherwise). -/
def mkDataFrame (dates : List Nat) (cols : List (String × List Int)) : Option DataFrame :=
  if cols.all (fun c => c.2.length = dates.length) then some ⟨dates, cols⟩ else none

/-- Column lookup by name; `[]` when the name is absent. -/
def DataFrame.col (df : DataFrame) (name : String) : List Int :=
  match df.cols.find? (fun c => c.1 = name) with
  | some c => c.2
  | none => []

/-- Row filter `df.loc[p(df.date)]`: keeps the positions whose date satisfies
`p`, in every column. -/
def DataFrame.filterRows (df : DataFrame) (p : Nat → Bool) : DataFrame where
  dates := df.dates.filter p
  cols := df.cols.map (fun c =>
    (c.1, (df.dates.zip c.2).filterMap (fun q => if p q.1 then some q.2 else none)))

/-- Construction of `hourly_dataframe` (weather_app.py lines 153-168): the six
hourly variables are read positionally and bound to display names. -/
def hourly_dataframe (hourly : RangeResponse) : Option DataFrame := do
  let v0 ← hourly.Variables 0
  let v1 ← hourly.Variables 1
  let v2 ← hourly.Variables 2
  let v3 ← hourly.Variables 3
  let v4 ← hourly.Variables 4
  let v5 ← hourly.Variables 5
  mkDataFrame (dateRange hourly.time hourly.timeEnd hourly.interval)
    [("Temp", v0), ("Relative Humidity", v1), ("Dew Point", v2),
     ("Apparent Temperature", v3), ("Precipitation Probability", v4),
     ("Cloud Cover", v5)]

/-- Construction of `daily_dataframe` (weather_app.py lines 171-186): the six
daily variables are read positionally and bound to display names. -/
def daily_dataframe (daily : RangeResponse) : Option DataFrame := do
  let v0 ← daily.Variables 0
  let v1 ← daily.Variables 1
  let v2 ← daily.Variables 2
  let v3 ← daily.Variables 3
  let v4 ← daily.Variables 4
  let v5 ← daily.Variables 5
  mkDataFrame (dateRange daily.time daily.timeEnd daily.interval)
    [("Temp Max", v0), ("Temp Min", v1), ("Apparent Temp Max", v2),
     ("Apparent Temp Min", v3), ("sunrise", v4), ("sunset", v5)]

/-- The current-conditions summary (weather_app.py lines 141-150): seven
labelled values, read positionally from indices 0 through 6; indices 7
(`is_day`) and 8 (`weather_code`) are commented out and never read. -/
def currentSummary (c : CurrentResponse) : Option (List (String × Int)) := do
  let v0 ← c.Value 0
  let v1 ← c.Value 1
  let v2 ← c.Value 2
  let v3 ← c.Value 3
  let v4 ← c.Value 4
  let v5 ← c.Value 5
  let v6 ← c.Value 6
  pure [("Temperature", v0), ("Relative Humidity", v1), ("Apparent Temperature", v2),
        ("Precipitation", v3), ("Rain", v4), ("Showers", v5), ("Snow", v6)]

/-- One long-form row `(time, measure, value)` produced by `pd.melt`. -/
structure LongRow where
  date : Nat
  measure : String
  value : Int
deriving DecidableEq, Repr

/-- The reshape `pd.melt(df, id_vars=[date], value_vars, var_name, value_name)`:
for each selected measure column in order, one row per time point, carrying the
column value unchanged. -/
def melt (df : DataFrame) (valueVars : List String) : List LongRow :=
  (valueVars.map (fun v =>
    (df.dates.zip (df.col v)).map (fun q => LongRow.mk q.1 v q.2))).flatten

/-- The measure columns selected for the daily chart (weather_app.py
lines 192-196): only the four temperature columns. -/
def dailyMeltVars : List String :=
  ["Temp Max", "Temp Min", "Apparent Temp Max", "Apparent Temp Min"]

/-- `daily_long = pd.melt(daily_dataframe, ...)` (weather_app.py lines 192-196). -/
def daily_long (df : DataFrame) : List LongRow := melt df dailyMeltVars

/-- Seconds per day; `ts.dt.date` on a unix-seconds timestamp is `ts / 86400`. -/
def secondsPerDay : Nat := 86400

/-- Calendar date (day number) of a timestamp, the `.dt.date` accessor. -/
def toDate (t : Nat) : Nat := t / secondsPerDay

/-- `end_date = date.today() + timedelta(days=2)` (weather_app.py line 221). -/
def end_date (today : Nat) : Nat := today + 2

/-- Hourly truncation (weather_app.py line 222):
`hourly_dataframe.loc[hourly_dataframe.date.dt.date < end_date]`. -/
def hourly_view (df : DataFrame) (today : Nat) : DataFrame :=
  df.filterRows (fun t => toDate t < end_date today)

/-- The measure columns selected for the hourly chart (weather_app.py
lines 225-228): five of the six hourly columns (Cloud Cover is left out). -/
def hourlyMeltVars : List String :=
  ["Temp", "Relative Humidity", "Dew Point", "Apparent Temperature",
   "Precipitation Probability"]

/-- `hourly_long = pd.melt(truncated hourly_dataframe, ...)` (weather_app.py
lines 220-228). -/
def hourly_long (df : DataFrame) (today : Nat) : List LongRow :=
  melt (hourly_view df today) hourlyMeltVars

/-- A dataframe is well formed for a column-name list when its columns carry
exactly those names in order and every column matches the date column in
length. -/
def WellFormed (df : DataFrame) (names : List String) : Prop :=
  df.cols.map Prod.fst = names ∧ ∀ c ∈ df.cols, c.2.length = df.dates.length

instance (df : DataFrame) (names : List String) : Decidable (WellFormed df names) :=
  inferInstanceAs
    (Decidable (df.cols.map Prod.fst = names ∧ ∀ c ∈ df.cols, c.2.length = df.dates.length))

/-- Display column names of the hourly dataframe. -/
def hourlyNames : List String :=
  ["Temp", "Relative Humidity", "Dew Point", "Apparent Temperature",
   "Precipitation Probability", "Cloud Cover"]

/-- Display column names of the daily dataframe. -/
def dailyNames : List String :=
  ["Temp Max", "Temp Min", "Apparent Temp Max", "Apparent Temp Min",
   "sunrise", "sunset"]

/-- Default coordinate values (Nashville, weather_app.py lines 128-129). -/
def latitudeDefault : ℚ := 36.1676029

/-- Default longitude value (weather_app.py line 129). -/
def longitudeDefault : ℚ := -86.8521476

/-- Model of `st.number_input(label, value=default)` as called on lines
128-134: no `min_value` or `max_value` argument is passed, so whatever number
the user enters is returned unchanged; the default is used only when the user
enters nothing. -/
def number_input (default : ℚ) (user : Option ℚ) : ℚ := user.getD default

/-- Cache freshness window: `requests_cache.CachedSession(expire_after=3600)`
and `st.cache_data(ttl=3600)` (weather_app.py lines 16 and 23). -/
def cacheTTL : Nat := 3600

/-- Cache state of the HTTP cache client.  Modelled from the spec: the cache
lookup and store logic lives in the `requests_cache` and `streamlit` libraries,
configured but not defined in src.  Entries map a request signature to cached
response bytes plus an expiry stamp `fetched-at + TTL`. -/
structure CacheState where
  entries : List (String × (List Nat × Nat))
deriving DecidableEq, Repr

/-- Modelled from the spec: cache lookup by request signature; a hit is an
entry whose expiry stamp lies strictly in the future. -/
def CacheState.lookup (s : CacheState) (sig : String) (now : Nat) : Option (List Nat) :=
  match s.entries.find? (fun e => e.1 = sig) with
  | some e => if now < e.2.2 then some e.2.1 else none
  | none => none

/-- Result of one cached fetch: the bytes returned, the cache state after the
call, and how many network calls the call performed (0 or 1). -/
structure FetchResult where
  bytes : List Nat
  state : CacheState
  networkCalls : Nat
deriving DecidableEq, Repr

/-- Modelled from the spec: `fetch(request)` of the HTTP cache client
(the `requests_cache`/`st.cache_data` layers configured on weather_app.py
lines 16 and 23, whose bodies are library code not in src).  A hit within the
freshness window returns the cached bytes with no network call; otherwise the
network is consulted once and the response stored under the signature with a
new expiry stamp `now + TTL`. -/
def cachedFetch (net : String → List Nat) (s : CacheState) (sig : String) (now : Nat) :
    FetchResult :=
  match s.lookup sig now with
  | some b => ⟨b, s, 0⟩
  | none =>
    let b := net sig
    ⟨b, ⟨(sig, (b, now + cacheTTL)) :: s.entries⟩, 1⟩

/-- Retry ceiling: `retry(cache_session, retries=5, backoff_factor=0.2)`
(weather_app.py line 17): five retries after the initial attempt. -/
def retryCeiling : Nat := 5

/-- Outcome of one network attempt: a successful response body, or a transient
failure (network error or server error status). -/
inductive Outcome where
  | success (bytes : List Nat)
  | transient
deriving DecidableEq, Repr

/-- Modelled from the spec: the bounded retry loop of the retry-enabled session
(`retry_requests`/`urllib3` library code configured on weather_app.py line 17).
`outcome i` is what the network does on attempt `i`; attempts run until one
succeeds or the retries remaining are exhausted, and on exhaustion a
fetch-exhausted failure (`none`) is surfaced with no further attempts.  The
result carries the bytes and the index of the successful attempt. -/
def retryLoop (outcome : Nat → Outcome) : Nat → Nat → Option (List Nat × Nat)
  | attempt, 0 =>
    match outcome attempt with
    | .success b => some (b, attempt)
    | .transient => none
  | attempt, fuel + 1 =>
    match outcome attempt with
    | .success b => some (b, attempt)
    | .transient => retryLoop outcome (attempt + 1) fuel

/-- Modelled from the spec: a fetch through the retry session: the initial
attempt plus up to `retryCeiling` retries. -/
def fetchWithRetry (outcome : Nat → Outcome) : Option (List Nat × Nat) :=
  retryLoop outcome 0 retryCeiling

/-- A seven-array hourly response: one more value array than the six requested
hourly variables. -/
def cexHourly7 : RangeResponse := ⟨0, 3600, 3600, [[1], [2], [3], [4], [5], [6], [7]]⟩

/-- A five-array hourly response: one fewer value array than the six requested
hourly variables. -/
def cexHourly5 : RangeResponse := ⟨0, 3600, 3600, [[1], [2], [3], [4], [5]]⟩

/-- A six-array daily response covering one day. -/
def wDailyResponse : RangeResponse := ⟨0, 86400, 86400, [[10], [20], [30], [40], [50], [60]]⟩

/-- The daily dataframe parsed from `wDailyResponse`. -/
def wDailyDf : DataFrame :=
  ⟨[0], [("Temp Max", [10]), ("Temp Min", [20]), ("Apparent Temp Max", [30]),
         ("Apparent Temp Min", [40]), ("sunrise", [50]), ("sunset", [60])]⟩

/-- A six-array hourly response covering two hours. -/
def wHourlyResponse : RangeResponse :=
  ⟨0, 7200, 3600, [[1, 2], [3, 4], [5, 6], [7, 8], [9, 10], [11, 12]]⟩

/-- The hourly dataframe parsed from `wHourlyResponse`. -/
def wHourlyDf : DataFrame :=
  ⟨[0, 3600], [("Temp", [1, 2]), ("Relative Humidity", [3, 4]), ("Dew Point", [5, 6]),
    ("Apparent Temperature", [7, 8]), ("Precipitation Probability", [9, 10]),
    ("Cloud Cover", [11, 12])]⟩

/-- A deterministic network for the cache witness. -/
def wNet : String → List Nat := fun _ => [1, 2, 3]

/-- An attempt schedule that fails twice and then succeeds. -/
def wOutcome : Nat → Outcome := fun i => if i < 2 then .transient else .success [9]

/-- An attempt schedule that always fails transiently. -/
def wOutcomeFail : Nat → Outcome := fun _ => .transient

/-- A current response with nine values, as requested. -/
def wCurrent : CurrentResponse := ⟨0, [1, 2, 3, 4, 5, 6, 7, 8, 9]⟩

/-- The same current response with different values at indices 7 and 8. -/
def wCurrent2 : CurrentResponse := ⟨0, [1, 2, 3, 4, 5, 6, 7, 100, 200]⟩

end WeatherApp
namespace WeatherApp

theorem length_dateRange (s e i : Nat) : (dateRange s e i).length = gridLen s e i := by
  simp [dateRange]

theorem mem_dateRange {t s e i : Nat} :
    t ∈ dateRange s e i ↔ ∃ k, k < gridLen s e i ∧ t = s + k * i := by
  simp [dateRange, eq_comm]

theorem dateRange_chain (s e i : Nat) :
    List.Chain' (fun a b => b = a + i) (dateRange s e i) := by
  unfold dateRange
  rw [List.chain'_map]
  cases hn : gridLen s e i with
  | zero => simp
  | succ n =>
    rw [List.chain'_range_succ]
    intro m _
    simp [Nat.succ_mul, Nat.add_assoc]

theorem mkDataFrame_some {dates : List Nat} {cols : List (String × List Int)} {df : DataFrame}
    (h : mkDataFrame dates cols = some df) :
    df.dates = dates ∧ df.cols = cols ∧ ∀ c ∈ cols, c.2.length = dates.length := by
  unfold mkDataFrame at h
  split at h
  · cases h
    rename_i hall
    refine ⟨rfl, rfl, fun c hc => ?_⟩
    simpa using (List.all_eq_true.mp hall) c hc
  · cases h

theorem hourly_dataframe_some {r : RangeResponse} {df : DataFrame}
    (h : hourly_dataframe r = some df) :
    df.dates = dateRange r.time r.timeEnd r.interval ∧
    ∀ c ∈ df.cols, c.2.length = df.dates.length := by
  unfold hourly_dataframe at h
  simp only [bind, Option.bind_eq_some] at h
  obtain ⟨a0, h0, a1, h1, a2, h2, a3, h3, a4, h4, a5, h5, hmk⟩ := h
  obtain ⟨hd, hc, hlen⟩ := mkDataFrame_some hmk
  exact ⟨hd, fun c hc2 => by rw [hd]; exact hlen c (hc ▸ hc2)⟩

end WeatherApp
namespace WeatherApp

theorem col_length_of_wf {df : DataFrame} {names : List String} (h : WellFormed df names)
    {v : String} (hv : v ∈ names) : (df.col v).length = df.dates.length := by
  obtain ⟨hnames, hlen⟩ := h
  have hex : ∃ c ∈ df.cols, (fun c => decide (c.1 = v)) c = true := by
    rw [← hnames] at hv
    obtain ⟨c, hc, hcv⟩ := List.mem_map.mp hv
    exact ⟨c, hc, decide_eq_true hcv⟩
  obtain ⟨c, hc⟩ := Option.isSome_iff_exists.mp (List.find?_isSome.mpr hex)
  have hmem := List.mem_of_find?_eq_some hc
  unfold DataFrame.col
  rw [hc]
  exact hlen c hmem

theorem filterMap_zip_length (p : Nat → Bool) :
    ∀ (ds : List Nat) (xs : List Int), xs.length = ds.length →
      ((ds.zip xs).filterMap (fun q => if p q.1 then some q.2 else none)).length
        = (ds.filter p).length
  | [], [], _ => rfl
  | d :: ds, x :: xs, h => by
    simp only [List.zip_cons_cons, List.filterMap_cons, List.filter_cons]
    cases hp : p d
    · simpa [hp] using filterMap_zip_length p ds xs (by simpa using h)
    · simpa [hp] using filterMap_zip_length p ds xs (by simpa using h)
  | [], x :: xs, h => by simp at h
  | d :: ds, [], h => by simp at h

theorem filterRows_wf {df : DataFrame} {names : List String} (h : WellFormed df names)
    (p : Nat → Bool) : WellFormed (df.filterRows p) names := by
  obtain ⟨hnames, hlen⟩ := h
  constructor
  · simpa [DataFrame.filterRows, List.map_map, Function.comp] using hnames
  · intro c hc
    simp only [DataFrame.filterRows, List.mem_map] at hc
    obtain ⟨c0, hc0, rfl⟩ := hc
    simpa [DataFrame.filterRows] using filterMap_zip_length p df.dates c0.2 (hlen c0 hc0)

theorem melt_length (df : DataFrame) (vars : List String)
    (h : ∀ v ∈ vars, (df.col v).length = df.dates.length) :
    (melt df vars).length = vars.length * df.dates.length := by
  induction vars with
  | nil => simp [melt]
  | cons v vs ih =>
    have hv := h v (List.mem_cons_self v vs)
    have ih2 := ih (fun w hw => h w (List.mem_cons_of_mem v hw))
    simp only [melt, List.map_cons, List.flatten_cons, List.length_append,
      List.length_map, List.length_zip, List.length_cons] at ih2 ⊢
    rw [hv, Nat.min_self, ih2]
    ring

theorem mem_melt {df : DataFrame} {vars : List String} {row : LongRow}
    (h : row ∈ melt df vars) :
    row.measure ∈ vars ∧
    ∃ i : Nat, df.dates[i]? = some row.date ∧ (df.col row.measure)[i]? = some row.value := by
  simp only [melt, List.mem_flatten, List.mem_map] at h
  obtain ⟨l, ⟨v, hv, rfl⟩, hrow⟩ := h
  obtain ⟨q, hq, rfl⟩ := List.mem_map.mp hrow
  obtain ⟨i, hi, hqe⟩ := List.mem_iff_getElem.mp hq
  have hiz : i < (df.dates.zip (df.col v)).length := hi
  rw [List.length_zip] at hiz
  have h1 : i < df.dates.length := lt_of_lt_of_le hiz (Nat.min_le_left _ _)
  have h2 : i < (df.col v).length := lt_of_lt_of_le hiz (Nat.min_le_right _ _)
  have hzip := @List.getElem_zip ℕ ℤ df.dates (df.col v) i hi
  rw [hzip] at hqe
  have hq1 : q.1 = df.dates[i] := by rw [← hqe]
  have hq2 : q.2 = (df.col v)[i] := by rw [← hqe]
  refine ⟨hv, i, ?_, ?_⟩
  · show df.dates[i]? = some q.1
    rw [hq1]
    exact List.getElem?_eq_getElem h1
  · show (df.col v)[i]? = some q.2
    rw [hq2]
    exact List.getElem?_eq_getElem h2

end WeatherApp
namespace WeatherApp

theorem retryLoop_zero (outcome : Nat → Outcome) (attempt : Nat) :
    retryLoop outcome attempt 0 =
      match outcome attempt with
      | .success b => some (b, attempt)
      | .transient => none := rfl

theorem retryLoop_succ (outcome : Nat → Outcome) (attempt fuel : Nat) :
    retryLoop outcome attempt (fuel + 1) =
      match outcome attempt with
      | .success b => some (b, attempt)
      | .transient => retryLoop outcome (attempt + 1) fuel := rfl

theorem retryLoop_success (outcome : Nat → Outcome) (b : List Nat) :
    ∀ (fuel start K : Nat), start ≤ K → K ≤ start + fuel →
      (∀ i, start ≤ i → i < K → outcome i = .transient) →
      outcome K = .success b →
      retryLoop outcome start fuel = some (b, K) := by
  intro fuel
  induction fuel with
  | zero =>
    intro start K h1 h2 hfail hsucc
    have he : start = K := by omega
    subst he
    rw [retryLoop_zero, hsucc]
  | succ fuel' ih =>
    intro start K h1 h2 hfail hsucc
    rcases Nat.eq_or_lt_of_le h1 with rfl | hlt
    · rw [retryLoop_succ, hsucc]
    · have hstart := hfail start le_rfl hlt
      rw [retryLoop_succ, hstart]
      exact ih (start + 1) K (by omega) (by omega)
        (fun i hi1 hi2 => hfail i (by omega) hi2) hsucc

theorem retryLoop_exhaust (outcome : Nat → Outcome) :
    ∀ (fuel start : Nat),
      (∀ i, start ≤ i → i ≤ start + fuel → outcome i = .transient) →
      retryLoop outcome start fuel = none := by
  intro fuel
  induction fuel with
  | zero =>
    intro start h
    rw [retryLoop_zero, h start le_rfl (by omega)]
  | succ fuel' ih =>
    intro start h
    rw [retryLoop_succ, h start le_rfl (by omega)]
    exact ih (start + 1) (fun i h1 h2 => h i (by omega) (by omega))

theorem retryLoop_congr (outcome outcome2 : Nat → Outcome) :
    ∀ (fuel start : Nat),
      (∀ i, start ≤ i → i ≤ start + fuel → outcome i = outcome2 i) →
      retryLoop outcome start fuel = retryLoop outcome2 start fuel := by
  intro fuel
  induction fuel with
  | zero =>
    intro start h
    rw [retryLoop_zero, retryLoop_zero, h start le_rfl (by omega)]
  | succ fuel' ih =>
    intro start h
    rw [retryLoop_succ, retryLoop_succ, h start le_rfl (by omega)]
    cases outcome2 start with
    | success b => rfl
    | transient => exact ih (start + 1) (fun i h1 h2 => h i (by omega) (by omega))

end WeatherApp
namespace WeatherApp

theorem daily_dataframe_some {r : RangeResponse} {df : DataFrame}
    (h : daily_dataframe r = some df) :
    df.dates = dateRange r.time r.timeEnd r.interval ∧
    ∀ c ∈ df.cols, c.2.length = df.dates.length := by
  unfold daily_dataframe at h
  simp only [bind, Option.bind_eq_some] at h
  obtain ⟨a0, h0, a1, h1, a2, h2, a3, h3, a4, h4, a5, h5, hmk⟩ := h
  obtain ⟨hd, hc, hlen⟩ := mkDataFrame_some hmk
  exact ⟨hd, fun c hc2 => by rw [hd]; exact hlen c (hc ▸ hc2)⟩

theorem hourly_dataframe_of_short {r : RangeResponse} (h : r.varArrays.length < 6) :
    hourly_dataframe r = none := by
  have h5 : r.varArrays[5]? = none := List.getElem?_eq_none (by omega)
  cases h0 : r.varArrays[0]? <;> cases h1 : r.varArrays[1]? <;>
    cases h2 : r.varArrays[2]? <;> cases h3 : r.varArrays[3]? <;>
    cases h4 : r.varArrays[4]? <;>
    simp [hourly_dataframe, RangeResponse.Variables, h0, h1, h2, h3, h4, h5]

theorem daily_dataframe_of_short {r : RangeResponse} (h : r.varArrays.length < 6) :
    daily_dataframe r = none := by
  have h5 : r.varArrays[5]? = none := List.getElem?_eq_none (by omega)
  cases h0 : r.varArrays[0]? <;> cases h1 : r.varArrays[1]? <;>
    cases h2 : r.varArrays[2]? <;> cases h3 : r.varArrays[3]? <;>
    cases h4 : r.varArrays[4]? <;>
    simp [daily_dataframe, RangeResponse.Variables, h0, h1, h2, h3, h4, h5]

theorem hourly_dataframe_of_long {r : RangeResponse}
    (hlen : 6 ≤ r.varArrays.length)
    (h : ∀ a ∈ r.varArrays.take 6, a.length = gridLen r.time r.timeEnd r.interval) :
    (hourly_dataframe r).isSome = true := by
  rcases hv : r.varArrays with _ | ⟨a0, _ | ⟨a1, _ | ⟨a2, _ | ⟨a3, _ | ⟨a4, _ | ⟨a5, rest⟩⟩⟩⟩⟩⟩ <;>
    rw [hv] at hlen <;> simp only [List.length_nil, List.length_cons] at hlen
  · omega
  · omega
  · omega
  · omega
  · omega
  · omega
  · rw [hv] at h
    have l0 := h a0 (by simp)
    have l1 := h a1 (by simp)
    have l2 := h a2 (by simp)
    have l3 := h a3 (by simp)
    have l4 := h a4 (by simp)
    have l5 := h a5 (by simp)
    simp [hourly_dataframe, RangeResponse.Variables, hv, mkDataFrame,
      length_dateRange, l0, l1, l2, l3, l4, l5]

theorem daily_dataframe_of_long {r : RangeResponse}
    (hlen : 6 ≤ r.varArrays.length)
    (h : ∀ a ∈ r.varArrays.take 6, a.length = gridLen r.time r.timeEnd r.interval) :
    (daily_dataframe r).isSome = true := by
  rcases hv : r.varArrays with _ | ⟨a0, _ | ⟨a1, _ | ⟨a2, _ | ⟨a3, _ | ⟨a4, _ | ⟨a5, rest⟩⟩⟩⟩⟩⟩ <;>
    rw [hv] at hlen <;> simp only [List.length_nil, List.length_cons] at hlen
  · omega
  · omega
  · omega
  · omega
  · omega
  · omega
  · rw [hv] at h
    have l0 := h a0 (by simp)
    have l1 := h a1 (by simp)
    have l2 := h a2 (by simp)
    have l3 := h a3 (by simp)
    have l4 := h a4 (by simp)
    have l5 := h a5 (by simp)
    simp [daily_dataframe, RangeResponse.Variables, hv, mkDataFrame,
      length_dateRange, l0, l1, l2, l3, l4, l5]

end WeatherApp
namespace WeatherApp

/-- C1: the hourly view retains exactly the grid points whose calendar date is
strictly before `now + 2` days; a grid point at 23:00 of day `now + 1` falls on
day `now + 1` and is below the cutoff, while one at 00:00 of day `now + 2`
falls on the cutoff day and is at or above it. -/
theorem C1_hourly_truncation (df : DataFrame) (today t : Nat) :
    (t ∈ (hourly_view df today).dates ↔ t ∈ df.dates ∧ toDate t < today + 2) ∧
    toDate ((today + 1) * secondsPerDay + 23 * 3600) = today + 1 ∧
    toDate ((today + 2) * secondsPerDay) = today + 2 ∧
    toDate ((today + 1) * secondsPerDay + 23 * 3600) < end_date today ∧
    end_date today ≤ toDate ((today + 2) * secondsPerDay) := by
  refine ⟨?_, ?_, ?_, ?_, ?_⟩
  · simp [hourly_view, DataFrame.filterRows, end_date, List.mem_filter]
  · unfold toDate secondsPerDay
    omega
  · unfold toDate secondsPerDay
    omega
  · unfold toDate secondsPerDay end_date
    omega
  · unfold toDate secondsPerDay end_date
    omega

/-- C2 counterexample: an hourly response carrying seven value arrays for the
six requested hourly variables parses successfully instead of surfacing a
parse failure. -/
theorem C2_variable_count_mismatch_cex :
    cexHourly7.varArrays.length = 7 ∧
    hourlyVars.length = 6 ∧
    (hourly_dataframe cexHourly7).isSome = true := by decide

/-- C2 amended: parsing performs no variable-count check.  A response with
fewer value arrays than requested fails only through out-of-range positional
access (modelled as a parse failure), while a response with at least as many
suitably sized arrays as requested, including strictly more (a count
mismatch), parses successfully from the first six arrays bound by position. -/
theorem C2_positional_binding_no_check (r : RangeResponse) :
    (r.varArrays.length < hourlyVars.length → hourly_dataframe r = none) ∧
    (hourlyVars.length ≤ r.varArrays.length →
      (∀ a ∈ r.varArrays.take hourlyVars.length,
        a.length = gridLen r.time r.timeEnd r.interval) →
      (hourly_dataframe r).isSome = true) ∧
    (r.varArrays.length < dailyVars.length → daily_dataframe r = none) ∧
    (dailyVars.length ≤ r.varArrays.length →
      (∀ a ∈ r.varArrays.take dailyVars.length,
        a.length = gridLen r.time r.timeEnd r.interval) →
      (daily_dataframe r).isSome = true) := by
  have hh : hourlyVars.length = 6 := rfl
  have hd : dailyVars.length = 6 := rfl
  rw [hh, hd]
  exact ⟨fun h => hourly_dataframe_of_short h,
    fun h1 h2 => hourly_dataframe_of_long h1 h2,
    fun h => daily_dataframe_of_short h,
    fun h1 h2 => daily_dataframe_of_long h1 h2⟩

/-- C2 witness: a five-array hourly response fails to parse, and the
seven-array response parses. -/
theorem C2_positional_binding_no_check_witness :
    hourly_dataframe cexHourly5 = none ∧ (hourly_dataframe cexHourly7).isSome = true :=
  ⟨(C2_positional_binding_no_check cexHourly5).1 (by decide),
   (C2_positional_binding_no_check cexHourly7).2.1 (by decide) (by decide)⟩

/-- C3 counterexample: the parsed daily dataframe has six measure columns
(including sunrise and sunset) over one day, yet the daily long-form view has
only four rows and carries no sunrise row, so not every column present in the
Series is unpivoted. -/
theorem C3_daily_unpivot_cex :
    daily_dataframe wDailyResponse = some wDailyDf ∧
    wDailyDf.cols.length = 6 ∧
    wDailyDf.dates.length = 1 ∧
    (daily_long wDailyDf).length = 4 ∧
    ((daily_long wDailyDf).map (fun row => row.measure)).contains "sunrise" = false := by
  decide

/-- C3 amended: the daily view unpivots exactly the four temperature columns
(Temp Max, Temp Min, Apparent Temp Max, Apparent Temp Min) into long form, one
row per (day, measure) pair for those columns; the sunrise and sunset columns
of the Series are not unpivoted. -/
theorem C3_daily_unpivot_selected (df : DataFrame) (h : WellFormed df dailyNames) :
    (daily_long df).length = dailyMeltVars.length * df.dates.length ∧
    (∀ row ∈ daily_long df, row.measure ∈ dailyMeltVars) ∧
    dailyMeltVars.contains "sunrise" = false ∧
    dailyMeltVars.contains "sunset" = false ∧
    df.cols.map Prod.fst = dailyNames := by
  have hsub : ∀ v ∈ dailyMeltVars, v ∈ dailyNames := by decide
  refine ⟨?_, ?_, rfl, rfl, h.1⟩
  · exact melt_length df dailyMeltVars (fun v hv => col_length_of_wf h (hsub v hv))
  · exact fun row hr => (mem_melt hr).1

/-- C3 witness: the amended statement evaluated on the concrete one-day daily
dataframe. -/
theorem C3_daily_unpivot_selected_witness :
    (daily_long wDailyDf).length = dailyMeltVars.length * wDailyDf.dates.length ∧
    (∀ row ∈ daily_long wDailyDf, row.measure ∈ dailyMeltVars) ∧
    dailyMeltVars.contains "sunrise" = false ∧
    dailyMeltVars.contains "sunset" = false ∧
    wDailyDf.cols.map Prod.fst = dailyNames :=
  C3_daily_unpivot_selected wDailyDf (by decide)

end WeatherApp
namespace WeatherApp

/-- C4: unpivoting M selected measure columns over T time points yields exactly
M times T long-form rows, and the hourly chart input has exactly 5 times the
number of grid points remaining before the cutoff. -/
theorem C4_long_form_row_count (df : DataFrame) (vars : List String) (today : Nat)
    (h : ∀ v ∈ vars, (df.col v).length = df.dates.length)
    (hwf : WellFormed df hourlyNames) :
    (melt df vars).length = vars.length * df.dates.length ∧
    (hourly_long df today).length = 5 * (hourly_view df today).dates.length := by
  constructor
  · exact melt_length df vars h
  · have hsub : ∀ v ∈ hourlyMeltVars, v ∈ hourlyNames := by decide
    have hwf2 : WellFormed (hourly_view df today) hourlyNames :=
      filterRows_wf hwf (fun t => decide (toDate t < end_date today))
    have hcols : ∀ v ∈ hourlyMeltVars,
        ((hourly_view df today).col v).length = (hourly_view df today).dates.length :=
      fun v hv => col_length_of_wf hwf2 (hsub v hv)
    have hml := melt_length (hourly_view df today) hourlyMeltVars hcols
    have hfive : hourlyMeltVars.length = 5 := rfl
    rw [hourly_long, hml, hfive]

/-- C4 witness: the row counts evaluated on the concrete two-hour hourly
dataframe. -/
theorem C4_long_form_row_count_witness :
    (melt wHourlyDf hourlyMeltVars).length = hourlyMeltVars.length * wHourlyDf.dates.length ∧
    (hourly_long wHourlyDf 0).length = 5 * (hourly_view wHourlyDf 0).dates.length :=
  C4_long_form_row_count wHourlyDf hourlyMeltVars 0 (by decide) (by decide)

/-- C5: whenever the hourly and daily dataframes are constructed, every measure
column has length equal to the time-grid length (the end point excluded), and
the grid is strictly increasing with fixed step equal to the range's interval. -/
theorem C5_series_invariants (rh rd : RangeResponse) (dfh dfd : DataFrame)
    (hh : hourly_dataframe rh = some dfh) (hd : daily_dataframe rd = some dfd)
    (hih : 0 < rh.interval) (hid : 0 < rd.interval) :
    (dfh.dates = dateRange rh.time rh.timeEnd rh.interval ∧
      (∀ c ∈ dfh.cols, c.2.length = gridLen rh.time rh.timeEnd rh.interval) ∧
      List.Chain' (fun a b => a < b ∧ b = a + rh.interval) dfh.dates) ∧
    (dfd.dates = dateRange rd.time rd.timeEnd rd.interval ∧
      (∀ c ∈ dfd.cols, c.2.length = gridLen rd.time rd.timeEnd rd.interval) ∧
      List.Chain' (fun a b => a < b ∧ b = a + rd.interval) dfd.dates) := by
  obtain ⟨hdatesh, hlenh⟩ := hourly_dataframe_some hh
  obtain ⟨hdatesd, hlend⟩ := daily_dataframe_some hd
  refine ⟨⟨hdatesh, ?_, ?_⟩, ⟨hdatesd, ?_, ?_⟩⟩
  · intro c hc
    rw [← length_dateRange, ← hdatesh]
    exact hlenh c hc
  · rw [hdatesh]
    exact (dateRange_chain _ _ _).imp (fun a b hab => ⟨by omega, hab⟩)
  · intro c hc
    rw [← length_dateRange, ← hdatesd]
    exact hlend c hc
  · rw [hdatesd]
    exact (dateRange_chain _ _ _).imp (fun a b hab => ⟨by omega, hab⟩)

/-- C5 witness: the invariants evaluated on the concrete hourly and daily
responses. -/
theorem C5_series_invariants_witness :
    (wHourlyDf.dates = dateRange wHourlyResponse.time wHourlyResponse.timeEnd
        wHourlyResponse.interval ∧
      (∀ c ∈ wHourlyDf.cols,
        c.2.length = gridLen wHourlyResponse.time wHourlyResponse.timeEnd
          wHourlyResponse.interval) ∧
      List.Chain' (fun a b => a < b ∧ b = a + wHourlyResponse.interval) wHourlyDf.dates) ∧
    (wDailyDf.dates = dateRange wDailyResponse.time wDailyResponse.timeEnd
        wDailyResponse.interval ∧
      (∀ c ∈ wDailyDf.cols,
        c.2.length = gridLen wDailyResponse.time wDailyResponse.timeEnd
          wDailyResponse.interval) ∧
      List.Chain' (fun a b => a < b ∧ b = a + wDailyResponse.interval) wDailyDf.dates) :=
  C5_series_invariants wHourlyResponse wDailyResponse wHourlyDf wDailyDf
    (by decide) (by decide) (by decide) (by decide)

/-- C8: every long-form row's value is the parsed Series value at the same
time-grid position for that measure, unchanged; the view builder neither
interpolates nor converts. -/
theorem C8_values_pass_through (df : DataFrame) (vars : List String) (row : LongRow)
    (h : row ∈ melt df vars) :
    row.measure ∈ vars ∧
    ∃ i : Nat, df.dates[i]? = some row.date ∧ (df.col row.measure)[i]? = some row.value :=
  mem_melt h

/-- C8 witness: the pass-through property at the first daily long-form row. -/
theorem C8_values_pass_through_witness :
    (LongRow.mk 0 "Temp Max" 10).measure ∈ dailyMeltVars ∧
    ∃ i : Nat, wDailyDf.dates[i]? = some 0 ∧ (wDailyDf.col "Temp Max")[i]? = some 10 :=
  C8_values_pass_through wDailyDf dailyMeltVars ⟨0, "Temp Max", 10⟩ (by decide)

end WeatherApp
namespace WeatherApp

/-- C6: two identical requests within the freshness window return byte-identical
responses with at most one network call in total: a miss fetches once and the
second call hits the stored entry, and a hit performs no network call at all.
Modelled from the spec (cache behaviour is library code configured in src). -/
theorem C6_cache_idempotence (net : String → List Nat) (s : CacheState) (sig : String)
    (t1 t2 : Nat) (_h12 : t1 ≤ t2) (hwin : t2 < t1 + cacheTTL) :
    (s.lookup sig t1 = none →
      (cachedFetch net s sig t1).bytes =
        (cachedFetch net (cachedFetch net s sig t1).state sig t2).bytes ∧
      (cachedFetch net s sig t1).networkCalls +
        (cachedFetch net (cachedFetch net s sig t1).state sig t2).networkCalls = 1) ∧
    (∀ b, s.lookup sig t1 = some b →
      (cachedFetch net s sig t1).bytes = b ∧
      (cachedFetch net s sig t1).networkCalls = 0 ∧
      (cachedFetch net s sig t1).state = s) := by
  constructor
  · intro hmiss
    have h1 : cachedFetch net s sig t1 =
        ⟨net sig, ⟨(sig, (net sig, t1 + cacheTTL)) :: s.entries⟩, 1⟩ := by
      unfold cachedFetch
      rw [hmiss]
    rw [h1]
    have h2 : CacheState.lookup ⟨(sig, (net sig, t1 + cacheTTL)) :: s.entries⟩ sig t2
        = some (net sig) := by
      unfold CacheState.lookup
      rw [List.find?_cons_of_pos _ (by simp)]
      simp only
      rw [if_pos hwin]
    unfold cachedFetch
    rw [h2]
    exact ⟨rfl, rfl⟩
  · intro b hhit
    unfold cachedFetch
    rw [hhit]
    exact ⟨rfl, rfl, rfl⟩

/-- C6 witness: a miss followed by an in-window identical request on an empty
cache. -/
theorem C6_cache_idempotence_witness :
    (cachedFetch wNet ⟨[]⟩ "u" 0).bytes =
      (cachedFetch wNet (cachedFetch wNet ⟨[]⟩ "u" 0).state "u" 10).bytes ∧
    (cachedFetch wNet ⟨[]⟩ "u" 0).networkCalls +
      (cachedFetch wNet (cachedFetch wNet ⟨[]⟩ "u" 0).state "u" 10).networkCalls = 1 :=
  (C6_cache_idempotence wNet ⟨[]⟩ "u" 0 10 (by decide) (by decide)).1 (by decide)

/-- C7: a fetch failing transiently K times with K at most the ceiling of 5 and
succeeding next returns that success; one failing on every attempt up to the
ceiling surfaces a fetch-exhausted failure, and the result never depends on
outcomes beyond the ceiling, so no further attempt is performed.  Modelled from
the spec (the retry loop is library code configured in src). -/
theorem C7_bounded_retry (outcome outcome2 : Nat → Outcome) (K : Nat) (b : List Nat) :
    (K ≤ retryCeiling → (∀ i, i < K → outcome i = .transient) →
      outcome K = .success b → fetchWithRetry outcome = some (b, K)) ∧
    ((∀ i, i ≤ retryCeiling → outcome i = .transient) → fetchWithRetry outcome = none) ∧
    ((∀ i, i ≤ retryCeiling → outcome i = outcome2 i) →
      fetchWithRetry outcome = fetchWithRetry outcome2) := by
  refine ⟨?_, ?_, ?_⟩
  · intro hK hfail hsucc
    exact retryLoop_success outcome b retryCeiling 0 K (Nat.zero_le K) (by omega)
      (fun i hi1 hi2 => hfail i hi2) hsucc
  · intro h
    exact retryLoop_exhaust outcome retryCeiling 0 (fun i h1 h2 => h i (by omega))
  · intro h
    exact retryLoop_congr outcome outcome2 retryCeiling 0 (fun i h1 h2 => h i (by omega))

/-- C7 witness: two transient failures then success yields the success; six
transient failures exhaust the retries. -/
theorem C7_bounded_retry_witness :
    fetchWithRetry wOutcome = some ([9], 2) ∧ fetchWithRetry wOutcomeFail = none :=
  ⟨(C7_bounded_retry wOutcome wOutcome 2 [9]).1 (by decide)
      (fun i hi => by unfold wOutcome; rw [if_pos hi]) rfl,
   (C7_bounded_retry wOutcomeFail wOutcomeFail 0 []).2.1 (fun i hi => rfl)⟩

/-- C9 counterexample: the latitude input has no bounds, so a manually entered
latitude of 1000 is held as-is, above the 90-degree bound. -/
theorem C9_coordinate_bounds_cex :
    number_input latitudeDefault (some 1000) = 1000 ∧
    (90 : ℚ) < number_input latitudeDefault (some 1000) := by
  constructor
  · rfl
  · norm_num [number_input]

/-- C9 amended: the default coordinates lie within the latitude and longitude
bounds, but the number inputs impose no minimum or maximum, passing any
manually entered value through unchanged, so out-of-range coordinates can be
held. -/
theorem C9_coordinate_bounds (d u : ℚ) :
    (-90 ≤ latitudeDefault ∧ latitudeDefault ≤ 90) ∧
    (-180 ≤ longitudeDefault ∧ longitudeDefault ≤ 180) ∧
    number_input d (some u) = u ∧
    number_input d none = d := by
  refine ⟨⟨?_, ?_⟩, ⟨?_, ?_⟩, rfl, rfl⟩
  · norm_num [latitudeDefault]
  · norm_num [latitudeDefault]
  · norm_num [longitudeDefault]
  · norm_num [longitudeDefault]

/-- C10: nine current variables are requested, with is_day and weather_code at
indices 7 and 8; the summary renders exactly the seven labelled values at
indices 0 through 6, and two responses agreeing on those indices render the
same summary, so the values at indices 7 and 8 never affect the output. -/
theorem C10_unused_current_variables (c c2 : CurrentResponse) :
    currentVars.length = 9 ∧
    currentVars[7]? = some "is_day" ∧
    currentVars[8]? = some "weather_code" ∧
    (∀ l, currentSummary c = some l →
      l.map Prod.fst = ["Temperature", "Relative Humidity", "Apparent Temperature",
        "Precipitation", "Rain", "Showers", "Snow"]) ∧
    ((∀ j, j < 7 → c.Value j = c2.Value j) → currentSummary c = currentSummary c2) := by
  refine ⟨rfl, rfl, rfl, ?_, ?_⟩
  · intro l h
    simp only [currentSummary, bind, Option.bind_eq_some, Option.pure_def,
      Option.some.injEq] at h
    obtain ⟨v0, h0, v1, h1, v2, h2, v3, h3, v4, h4, v5, h5, v6, h6, hl⟩ := h
    rw [← hl]
    rfl
  · intro h
    simp only [currentSummary, h 0 (by omega), h 1 (by omega), h 2 (by omega),
      h 3 (by omega), h 4 (by omega), h 5 (by omega), h 6 (by omega)]

/-- C10 witness: changing indices 7 and 8 of a concrete response leaves the
summary unchanged, and the summary lists exactly the seven labels. -/
theorem C10_unused_current_variables_witness :
    currentSummary wCurrent = currentSummary wCurrent2 ∧
    (∀ l, currentSummary wCurrent = some l →
      l.map Prod.fst = ["Temperature", "Relative Humidity", "Apparent Temperature",
        "Precipitation", "Rain", "Showers", "Snow"]) :=
  ⟨(C10_unused_current_variables wCurrent wCurrent2).2.2.2.2
      (fun j hj => by interval_cases j <;> rfl),
   (C10_unused_current_variables wCurrent wCurrent2).2.2.2.1⟩

end WeatherApp
